import Mathlib

/-!
Shallow embedding of the progression engine of `src/backend/server.py`
(irys-clicker).

Modelling conventions:
* Timestamps are integers (seconds); `datetime.utcnow()` is an arbitrary
  instant `now : ℤ` supplied to each operation, and
  `(now - last).total_seconds()` is the integer difference.
* Python `int(x)` on a quotient of seconds truncates toward zero, which on
  integer-second differences is `Int.tdiv`.
* `points` and the per-click yields are modelled in exact rational
  arithmetic (`ℚ`); the reference uses Python floats there, whose rounding
  is not modelled.
* The Mongo document is the `Player` structure; a `$set` write is a
  structure update; a field that may be absent (`last_save`) is an
  `Option`.  Operations that abort with `HTTPException` before writing are
  modelled with `Except String`, the detail string being the error carried.
-/

namespace IrysClicker

/-- Python `int(x)` applied to a (possibly negative) rational quantity:
truncation toward zero. -/
def pyInt (q : ℚ) : ℤ :=
  if 0 ≤ q then ⌊q⌋ else ⌈q⌉

/-- Lookup `CHARACTER_LEVELS[level]["max_energy"]` (server.py lines 29-35); 0 for
a key absent from the table (the reference would raise a `KeyError`, which
never happens on in-range levels). -/
def max_energy (level : ℤ) : ℤ :=
  if level = 1 then 100
  else if level = 2 then 150
  else if level = 3 then 200
  else if level = 4 then 250
  else if level = 5 then 300
  else 0

/-- Lookup `CHARACTER_LEVELS[level]["multiplier"]` (server.py lines 29-35). -/
def multiplier (level : ℤ) : ℚ :=
  if level = 1 then 1
  else if level = 2 then 2
  else if level = 3 then 3
  else if level = 4 then 5
  else if level = 5 then 8
  else 0

/-- Lookup `CHARACTER_LEVELS[level]["advancement_cost"]` (server.py lines 29-35);
`none` models the Python `None` at the terminal level 5 (and an absent key). -/
def advancement_cost (level : ℤ) : Option ℚ :=
  if level = 1 then some 5000
  else if level = 2 then some 5000000
  else if level = 3 then some 500000000
  else if level = 4 then some 50000000000
  else none

/-- Function `get_upgrade_cost` (server.py lines 64-68): `100` at level 0, else
`int(100 * 2.5 ** level)`, in exact rational arithmetic (`2.5 ** level`
for a negative `level` is the exact rational power, hence `zpow`). -/
def get_upgrade_cost (level : ℤ) : ℤ :=
  if level = 0 then 100
  else pyInt (100 * (5 / 2 : ℚ) ^ level)

/-- Function `calculate_points_per_click` (server.py lines 70-79): 1 at upgrade
level 0, else the running total of `get_upgrade_cost i * 0.1` for `i` in
`range(upgrade_level)`, accumulated left to right (`range` of a negative
argument is empty, hence `Int.toNat`). -/
def calculate_points_per_click (upgrade_level : ℤ) : ℚ :=
  if upgrade_level = 0 then 1
  else (List.range upgrade_level.toNat).foldl
    (fun total_points (i : ℕ) => total_points + (get_upgrade_cost (i : ℤ) : ℚ) * (1 / 10)) 0

/-- The Player Record stored in `db.players` (server.py lines 85-93);
`last_save` is absent (`none`) until an action first writes it. -/
structure Player where
  points : ℚ
  energy : ℤ
  character_level : ℤ
  upgrade_level : ℤ
  last_energy_update : ℤ
  last_passive_income : ℤ
  last_save : Option ℤ
  deriving DecidableEq, Repr

/-- The record inserted by `get_or_create_player` for an unknown player id
(server.py lines 84-94), created at instant `t`. -/
def new_player (t : ℤ) : Player :=
  { points := 0
    energy := 100
    character_level := 1
    upgrade_level := 0
    last_energy_update := t
    last_passive_income := t
    last_save := none }

/-- Function `get_or_create_player` (server.py lines 81-95): the stored record if
present, otherwise the default one created at instant `t`. -/
def get_or_create_player (stored : Option Player) (t : ℤ) : Player :=
  stored.getD (new_player t)

/-- Function `update_energy` (server.py lines 97-123): energy catch-up at instant
`now`.  `int(time_diff / 10)` truncates toward zero: `Int.tdiv`. -/
def update_energy (player : Player) (now : ℤ) : Player :=
  let time_diff := now - player.last_energy_update
  let energy_to_add := Int.tdiv time_diff 10
  if energy_to_add > 0 then
    { player with
        energy := min (player.energy + energy_to_add) (max_energy player.character_level)
        last_energy_update := now }
  else player

/-- Function `update_passive_income` (server.py lines 125-153): passive-income
catch-up at instant `now`; `int(minutes_elapsed)` truncates toward zero. -/
def update_passive_income (player : Player) (now : ℤ) : Player :=
  let passive_clicks := Int.tdiv (now - player.last_passive_income) 60
  if passive_clicks > 0 then
    let base_points := calculate_points_per_click player.upgrade_level
    let passive_points := (passive_clicks : ℚ) * base_points * multiplier player.character_level
    { player with
        points := player.points + passive_points
        last_passive_income := now }
  else player

/-- The catch-up pair run at the top of every endpoint (e.g. server.py
lines 159-161): energy first, then passive income. -/
def catch_up (player : Player) (now : ℤ) : Player :=
  update_passive_income (update_energy player now) now

/-- The `last_save` value reported by `get_player` (server.py line 173):
the stored `last_save` if present, otherwise the stored
`last_energy_update` (always present, so the final `utcnow()` default is
unreachable), read after the catch-up pair has run. -/
def get_player_last_save (player : Player) (now : ℤ) : ℤ :=
  let p := catch_up player now
  p.last_save.getD p.last_energy_update

/-- The post-catch-up body of `click` (server.py lines 206-228): energy
guard, then points/energy update and `last_save` write. -/
def click_checked (player : Player) (now : ℤ) : Except String Player :=
  if player.energy < 2 then .error "Not enough energy"
  else
    let base_points := calculate_points_per_click player.upgrade_level
    let points_earned := base_points * multiplier player.character_level
    .ok { player with
            points := player.points + points_earned
            energy := player.energy - 2
            last_save := some now }

/-- The full `click` endpoint effect on the stored record (server.py lines
198-236): catch-up, then the checked body; a rejected click leaves the
caught-up record as persisted by the catch-up routines. -/
def click (player : Player) (now : ℤ) : Player :=
  let p := catch_up player now
  match click_checked p now with
  | .ok q => q
  | .error _ => p

/-- The post-catch-up body of `purchase_upgrade` (server.py lines
250-274): staleness guard on the requested level, cost computation from
the requested level, points guard, then the purchase. -/
def purchase_upgrade_checked (player : Player) (requested : ℤ) (now : ℤ) :
    Except String Player :=
  if requested ≠ player.upgrade_level then .error "Invalid upgrade level"
  else
    let cost := get_upgrade_cost requested
    if player.points < (cost : ℚ) then .error "Not enough points"
    else .ok { player with
                 points := player.points - (cost : ℚ)
                 upgrade_level := player.upgrade_level + 1
                 last_save := some now }

/-- The full `purchase_upgrade` endpoint effect on the stored record
(server.py lines 242-286). -/
def purchase_upgrade (player : Player) (requested : ℤ) (now : ℤ) : Player :=
  let p := catch_up player now
  match purchase_upgrade_checked p requested now with
  | .ok q => q
  | .error _ => p

/-- The post-catch-up body of `advance_character` (server.py lines
296-323): terminal-level guard, then the Python `not advancement_cost or
points < advancement_cost` guard (truthy: `None` or `0` both fail), then
the advancement reset. -/
def advance_character_checked (player : Player) (now : ℤ) : Except String Player :=
  if player.character_level ≥ 5 then .error "Already at maximum level"
  else
    match advancement_cost player.character_level with
    | none => .error "Not enough points for advancement"
    | some cost =>
      if cost = 0 ∨ player.points < cost then .error "Not enough points for advancement"
      else .ok { player with
                   character_level := player.character_level + 1
                   points := 0
                   upgrade_level := 0
                   energy := max_energy (player.character_level + 1)
                   last_energy_update := now
                   last_passive_income := now
                   last_save := some now }

/-- The full `advance_character` endpoint effect on the stored record
(server.py lines 288-335). -/
def advance_character (player : Player) (now : ℤ) : Player :=
  let p := catch_up player now
  match advance_character_checked p now with
  | .ok q => q
  | .error _ => p

/-- The `manual_save` endpoint effect (server.py lines 337-363): catch-up,
then refresh `last_save`. -/
def manual_save (player : Player) (now : ℤ) : Player :=
  { catch_up player now with last_save := some now }

/-- The `export_save_data` endpoint effect on the stored record (server.py
lines 365-397): only the catch-up side effects. -/
def export_save_data (player : Player) (now : ℤ) : Player :=
  catch_up player now

/-- An externally supplied save blob for the import endpoint (server.py
lines 399-401): each field `none` when the key is absent from the dict
(for the two timestamps, also when unparsable). -/
structure SaveData where
  points : Option ℚ
  energy : Option ℤ
  character_level : Option ℤ
  upgrade_level : Option ℤ
  last_energy_update : Option ℤ
  last_passive_income : Option ℤ
  deriving DecidableEq, Repr

/-- The `missing_fields` list computed by the import endpoint (server.py
lines 410-411), in the order of `required_fields`. -/
def missing_fields (data : SaveData) : List String :=
  (if data.points.isNone then ["points"] else []) ++
  (if data.energy.isNone then ["energy"] else []) ++
  (if data.character_level.isNone then ["character_level"] else []) ++
  (if data.upgrade_level.isNone then ["upgrade_level"] else [])

/-- Endpoint `import_save_data` (server.py lines 403-465): validation in order
(missing fields, character level range, energy range against the imported
cap of the imported level, points / upgrade level signs), then a wholesale upsert.  The
result does not depend on any previously stored record, which is the
upsert: the `$set` covers every field of the document. -/
def import_save_data (data : SaveData) (now : ℤ) : Except String Player :=
  match data.points, data.energy, data.character_level, data.upgrade_level with
  | some points, some energy, some character_level, some upgrade_level =>
    if character_level < 1 ∨ character_level > 5 then .error "Invalid character level"
    else if energy < 0 ∨ energy > max_energy character_level then .error "Invalid energy value"
    else if points < 0 ∨ upgrade_level < 0 then .error "Invalid points or upgrade level"
    else .ok { points := points
               energy := energy
               character_level := character_level
               upgrade_level := upgrade_level
               last_energy_update := data.last_energy_update.getD now
               last_passive_income := data.last_passive_income.getD now
               last_save := some now }
  | _, _, _, _ =>
    .error ("Invalid save data: missing fields " ++
      String.intercalate ", " (missing_fields data))

/-- One request against the engine, tagged with the instant it arrives
(and, for an import, the blob it carries). -/
inductive Op where
  | getPlayer (now : ℤ)
  | clickOp (now : ℤ)
  | upgradeOp (requested : ℤ) (now : ℤ)
  | advanceOp (now : ℤ)
  | saveOp (now : ℤ)
  | exportOp (now : ℤ)
  | importOp (data : SaveData) (now : ℤ)
  deriving Repr

/-- Effect of one request on the stored record; a rejected import leaves
the record untouched (the validation failures raise before the write). -/
def apply_op (player : Player) : Op → Player
  | .getPlayer now => catch_up player now
  | .clickOp now => click player now
  | .upgradeOp requested now => purchase_upgrade player requested now
  | .advanceOp now => advance_character player now
  | .saveOp now => manual_save player now
  | .exportOp now => export_save_data player now
  | .importOp data now =>
    match import_save_data data now with
    | .ok q => q
    | .error _ => player

/-- The stored record after a player is lazily created at instant `t` and
the given requests are served in order. -/
def run (t : ℤ) (ops : List Op) : Player :=
  ops.foldl apply_op (new_player t)

/-- The state invariants of the spec (section 3): energy within the
cap of the current tier, non-negative points, character level in 1..5. -/
def Inv (p : Player) : Prop :=
  0 ≤ p.energy ∧ p.energy ≤ max_energy p.character_level ∧
  0 ≤ p.points ∧ 1 ≤ p.character_level ∧ p.character_level ≤ 5

/-- A sample caught-up player used by the witnesses below. -/
def p_sample : Player :=
  { points := 7
    energy := 50
    character_level := 2
    upgrade_level := 1
    last_energy_update := 0
    last_passive_income := 0
    last_save := none }

/-- Worked example of the spec for an upgrade purchase: level 0, 100
points. -/
def p_upgrade_sample : Player :=
  { points := 100
    energy := 50
    character_level := 1
    upgrade_level := 0
    last_energy_update := 0
    last_passive_income := 0
    last_save := none }

/-- Worked example of the spec for advancement: level 1, 5000 points. -/
def p_advance_sample : Player :=
  { points := 5000
    energy := 80
    character_level := 1
    upgrade_level := 3
    last_energy_update := 0
    last_passive_income := 0
    last_save := none }

/-- A valid import payload used by the C8 witness. -/
def d_sample : SaveData :=
  { points := some 50
    energy := some 120
    character_level := some 2
    upgrade_level := some 1
    last_energy_update := some 5
    last_passive_income := some 7 }

/-! ### Helper lemmas -/

theorem fdiv_ten_pos_nonneg {e : ℤ} (h : 0 < Int.fdiv e 10) : 0 ≤ e := by
  have h1 : Int.fdiv e 10 = e / 10 := Int.fdiv_eq_ediv e (by norm_num)
  rw [h1] at h; omega

theorem tdiv_eq_fdiv_ten {e : ℤ} (h0 : 0 ≤ e) : Int.tdiv e 10 = Int.fdiv e 10 := by
  rw [Int.fdiv_eq_ediv e (by norm_num), Int.tdiv_eq_ediv h0 (by norm_num)]

theorem fdiv_sixty_pos_nonneg {e : ℤ} (h : 0 < Int.fdiv e 60) : 0 ≤ e := by
  have h1 : Int.fdiv e 60 = e / 60 := Int.fdiv_eq_ediv e (by norm_num)
  rw [h1] at h; omega

theorem tdiv_eq_fdiv_sixty {e : ℤ} (h0 : 0 ≤ e) : Int.tdiv e 60 = Int.fdiv e 60 := by
  rw [Int.fdiv_eq_ediv e (by norm_num), Int.tdiv_eq_ediv h0 (by norm_num)]

/-! ### Claim theorems -/

/-- C1: energy catch-up.  With `elapsed = now - last_energy_update` and
`gained = ⌊elapsed / 10⌋`: if `gained > 0` the new energy is
`min (energy + gained) (max_energy character_level)` and the anchor snaps
to `now`; if `gained = 0` the record is unchanged; and the routine is
idempotent at a fixed `now`. -/
theorem energy_catch_up_spec (p : Player) (now : ℤ) :
    (0 < Int.fdiv (now - p.last_energy_update) 10 →
      update_energy p now =
        { p with
            energy := min (p.energy + Int.fdiv (now - p.last_energy_update) 10)
              (max_energy p.character_level)
            last_energy_update := now }) ∧
    (Int.fdiv (now - p.last_energy_update) 10 = 0 → update_energy p now = p) ∧
    update_energy (update_energy p now) now = update_energy p now := by
  refine ⟨?_, ?_, ?_⟩
  · intro h
    have h0 : 0 ≤ now - p.last_energy_update := fdiv_ten_pos_nonneg h
    have ht := tdiv_eq_fdiv_ten h0
    simp only [update_energy, ht]
    rw [if_pos h]
  · intro h
    have h0 : 0 ≤ now - p.last_energy_update := by
      have h1 : Int.fdiv (now - p.last_energy_update) 10 = (now - p.last_energy_update) / 10 :=
        Int.fdiv_eq_ediv _ (by norm_num)
      rw [h1] at h; omega
    have ht : Int.tdiv (now - p.last_energy_update) 10 = 0 := by
      rw [tdiv_eq_fdiv_ten h0, h]
    simp [update_energy, ht]
  · by_cases hc : 0 < Int.tdiv (now - p.last_energy_update) 10
    · have h1 : update_energy p now =
          { p with
              energy := min (p.energy + Int.tdiv (now - p.last_energy_update) 10)
                (max_energy p.character_level)
              last_energy_update := now } := by
        simp only [update_energy]; rw [if_pos hc]
      rw [h1]
      simp [update_energy]
    · simp [update_energy, hc]

/-- C1 witness: a concrete caught-up player two regeneration ticks in the
past. -/
theorem energy_catch_up_spec_witness :
    update_energy p_sample 25 =
      { p_sample with
          energy := min (p_sample.energy + Int.fdiv (25 - p_sample.last_energy_update) 10)
            (max_energy p_sample.character_level)
          last_energy_update := 25 } :=
  (energy_catch_up_spec p_sample 25).1 (by decide)

/-- C2: passive-income catch-up.  With `elapsed = now - last_passive_income`
and `passive_clicks = ⌊elapsed / 60⌋`: if `passive_clicks > 0` then points
grow by exactly `passive_clicks × base_points_per_click(upgrade_level) ×
multiplier(character_level)` and the anchor snaps to `now`; if
`passive_clicks = 0` nothing changes; energy and its anchor are never
modified, and the gain is not limited by energy or its capacity. -/
theorem passive_income_spec (p : Player) (now : ℤ) :
    (0 < Int.fdiv (now - p.last_passive_income) 60 →
      update_passive_income p now =
        { p with
            points := p.points + (Int.fdiv (now - p.last_passive_income) 60 : ℚ) *
              calculate_points_per_click p.upgrade_level * multiplier p.character_level
            last_passive_income := now }) ∧
    (Int.fdiv (now - p.last_passive_income) 60 = 0 → update_passive_income p now = p) ∧
    (update_passive_income p now).energy = p.energy ∧
    (update_passive_income p now).last_energy_update = p.last_energy_update := by
  refine ⟨?_, ?_, ?_, ?_⟩
  · intro h
    have h0 : 0 ≤ now - p.last_passive_income := fdiv_sixty_pos_nonneg h
    have ht := tdiv_eq_fdiv_sixty h0
    simp only [update_passive_income, ht]
    rw [if_pos h]
  · intro h
    have h0 : 0 ≤ now - p.last_passive_income := by
      have h1 : Int.fdiv (now - p.last_passive_income) 60 = (now - p.last_passive_income) / 60 :=
        Int.fdiv_eq_ediv _ (by norm_num)
      rw [h1] at h; omega
    have ht : Int.tdiv (now - p.last_passive_income) 60 = 0 := by
      rw [tdiv_eq_fdiv_sixty h0, h]
    simp [update_passive_income, ht]
  · by_cases hc : 0 < Int.tdiv (now - p.last_passive_income) 60 <;>
      simp [update_passive_income, hc]
  · by_cases hc : 0 < Int.tdiv (now - p.last_passive_income) 60 <;>
      simp [update_passive_income, hc]

/-- C2 witness: a concrete caught-up player two full minutes in the past. -/
theorem passive_income_spec_witness :
    update_passive_income p_sample 130 =
      { p_sample with
          points := p_sample.points + (Int.fdiv (130 - p_sample.last_passive_income) 60 : ℚ) *
            calculate_points_per_click p_sample.upgrade_level * multiplier p_sample.character_level
          last_passive_income := 130 } :=
  (passive_income_spec p_sample 130).1 (by decide)

theorem foldl_add_eq_sum (f : ℕ → ℚ) :
    ∀ (l : List ℕ) (init : ℚ), l.foldl (fun acc i => acc + f i) init = init + (l.map f).sum := by
  intro l
  induction l with
  | nil => intro init; simp
  | cons x xs ih => intro init; simp [ih, add_assoc]

/-- C3: the value `get_upgrade_cost level` is `⌊100 × 2.5 ^ level⌋` in exact
arithmetic for every `level ≥ 0`; in particular 100, 250 and 625 at levels
0, 1 and 2. -/
theorem upgrade_cost_spec :
    (∀ level : ℕ, get_upgrade_cost level = ⌊(100 : ℚ) * (5 / 2 : ℚ) ^ level⌋) ∧
    get_upgrade_cost 0 = 100 ∧ get_upgrade_cost 1 = 250 ∧ get_upgrade_cost 2 = 625 := by
  have hmain : ∀ level : ℕ, get_upgrade_cost level = ⌊(100 : ℚ) * (5 / 2 : ℚ) ^ level⌋ := by
    intro level
    cases level with
    | zero => simp [get_upgrade_cost]
    | succ n =>
      have hne : ((n + 1 : ℕ) : ℤ) ≠ 0 := by exact_mod_cast Nat.succ_ne_zero n
      rw [get_upgrade_cost, if_neg hne, pyInt, if_pos (by positivity), zpow_natCast]
  refine ⟨hmain, ?_, ?_, ?_⟩
  · have h := hmain 0; norm_num at h; exact h
  · have h := hmain 1; norm_num at h; exact h
  · have h := hmain 2; norm_num at h; exact h

/-- C4: the function `calculate_points_per_click` is 1 at upgrade level 0 and, for a
positive upgrade level, the iterated sum over `i < upgrade_level` of
`get_upgrade_cost i × 0.1` accumulated in order; in particular 10 at
level 1. -/
theorem points_per_click_spec :
    calculate_points_per_click 0 = 1 ∧
    (∀ u : ℤ, 0 < u →
      calculate_points_per_click u =
        ((List.range u.toNat).map (fun (i : ℕ) => (get_upgrade_cost (i : ℤ) : ℚ) * (1 / 10))).sum) ∧
    calculate_points_per_click 1 = 10 := by
  refine ⟨by simp [calculate_points_per_click], ?_, ?_⟩
  · intro u hu
    rw [calculate_points_per_click, if_neg (by omega), foldl_add_eq_sum, zero_add]
  · rw [calculate_points_per_click, if_neg (by norm_num)]
    simp [get_upgrade_cost, List.range_succ]
    norm_num

/-- C4 witness: upgrade level 3 is positive and its per-click yield is the
three-term running total. -/
theorem points_per_click_spec_witness :
    calculate_points_per_click 3 =
      ((List.range (3 : ℤ).toNat).map (fun (i : ℕ) => (get_upgrade_cost (i : ℤ) : ℚ) * (1 / 10))).sum :=
  points_per_click_spec.2.1 3 (by decide)

/-- C5: on a caught-up record, a click fails with the insufficient-energy
error exactly when `energy < 2` (points are irrelevant), and otherwise
adds `base_points_per_click × multiplier` to points, subtracts 2 from
energy and stamps `last_save := now`. -/
theorem click_spec (p : Player) (now : ℤ) :
    (p.energy < 2 → click_checked p now = .error "Not enough energy") ∧
    (2 ≤ p.energy →
      click_checked p now = .ok { p with
        points := p.points +
          calculate_points_per_click p.upgrade_level * multiplier p.character_level
        energy := p.energy - 2
        last_save := some now }) := by
  constructor
  · intro h; simp [click_checked, h]
  · intro h
    rw [click_checked, if_neg (not_lt.mpr h)]

/-- C5 witness: a concrete click with plenty of energy. -/
theorem click_spec_witness :
    click_checked p_sample 30 = .ok { p_sample with
      points := p_sample.points +
        calculate_points_per_click p_sample.upgrade_level * multiplier p_sample.character_level
      energy := p_sample.energy - 2
      last_save := some 30 } :=
  (click_spec p_sample 30).2 (by decide)

/-- C6: on a caught-up record, a purchase with a requested level different
from the stored `upgrade_level` fails with the invalid-level error
regardless of points; with a matching level it fails with the
insufficient-points error when `points < get_upgrade_cost upgrade_level`,
and otherwise subtracts that cost, increments `upgrade_level` and stamps
`last_save := now`. -/
theorem purchase_upgrade_spec (p : Player) (requested now : ℤ) :
    (requested ≠ p.upgrade_level →
      purchase_upgrade_checked p requested now = .error "Invalid upgrade level") ∧
    (requested = p.upgrade_level →
      (p.points < (get_upgrade_cost p.upgrade_level : ℚ) →
        purchase_upgrade_checked p requested now = .error "Not enough points") ∧
      ((get_upgrade_cost p.upgrade_level : ℚ) ≤ p.points →
        purchase_upgrade_checked p requested now = .ok { p with
          points := p.points - (get_upgrade_cost p.upgrade_level : ℚ)
          upgrade_level := p.upgrade_level + 1
          last_save := some now })) := by
  constructor
  · intro h; simp [purchase_upgrade_checked, h]
  · intro h
    subst h
    constructor
    · intro hlt
      simp [purchase_upgrade_checked, hlt]
    · intro hge
      rw [purchase_upgrade_checked, if_neg (by simp)]
      simp only []
      rw [if_neg (not_lt.mpr hge)]

/-- C6 witness: buying the level-0 upgrade with exactly 100 points
succeeds. -/
theorem purchase_upgrade_spec_witness :
    purchase_upgrade_checked p_upgrade_sample 0 40 = .ok { p_upgrade_sample with
      points := p_upgrade_sample.points - (get_upgrade_cost p_upgrade_sample.upgrade_level : ℚ)
      upgrade_level := p_upgrade_sample.upgrade_level + 1
      last_save := some 40 } :=
  ((purchase_upgrade_spec p_upgrade_sample 0 40).2 (by decide)).2 (by decide)

/-- C7: on a caught-up record, advancement fails at character level 5
regardless of points; at a level in 1..4 it fails when
`points < advancement_cost` and otherwise increments the level, zeroes
points and upgrades, refills energy to the cap of the new level and stamps all
three timestamps with `now`; in particular level 1 with 5000 points yields
level 2 with energy 150. -/
theorem advance_character_spec (p : Player) (now : ℤ) :
    (p.character_level = 5 →
      advance_character_checked p now = .error "Already at maximum level") ∧
    (1 ≤ p.character_level → p.character_level < 5 →
      ((p.points < (advancement_cost p.character_level).getD 0 →
        advance_character_checked p now = .error "Not enough points for advancement") ∧
      ((advancement_cost p.character_level).getD 0 ≤ p.points →
        advance_character_checked p now = .ok { p with
          character_level := p.character_level + 1
          points := 0
          upgrade_level := 0
          energy := max_energy (p.character_level + 1)
          last_energy_update := now
          last_passive_income := now
          last_save := some now }))) ∧
    (p.character_level = 1 → p.points = 5000 →
      advance_character_checked p now = .ok { p with
        character_level := 2
        points := 0
        upgrade_level := 0
        energy := 150
        last_energy_update := now
        last_passive_income := now
        last_save := some now }) := by
  refine ⟨?_, ?_, ?_⟩
  · intro h
    simp [advance_character_checked, h]
  · intro h1 h2
    have h5 : ¬(p.character_level ≥ 5) := not_le.mpr h2
    obtain ⟨k, hk, hk0⟩ : ∃ k : ℚ, advancement_cost p.character_level = some k ∧ k ≠ 0 := by
      have hc : p.character_level = 1 ∨ p.character_level = 2 ∨
          p.character_level = 3 ∨ p.character_level = 4 := by omega
      rcases hc with h | h | h | h <;> rw [h] <;> norm_num [advancement_cost]
    constructor
    · intro hlt
      rw [hk] at hlt
      simp only [Option.getD_some] at hlt
      simp only [advance_character_checked]
      rw [if_neg h5]
      simp only [hk]
      rw [if_pos (Or.inr hlt)]
    · intro hge
      rw [hk] at hge
      simp only [Option.getD_some] at hge
      simp only [advance_character_checked]
      rw [if_neg h5]
      simp only [hk]
      rw [if_neg (by push_neg; exact ⟨hk0, hge⟩)]
  · intro h hp
    simp [advance_character_checked, advancement_cost, max_energy, h, hp]

/-- C7 witness: advancing at level 1 with exactly 5000 points. -/
theorem advance_character_spec_witness :
    advance_character_checked p_advance_sample 99 = .ok { p_advance_sample with
      character_level := 2
      points := 0
      upgrade_level := 0
      energy := 150
      last_energy_update := 99
      last_passive_income := 99
      last_save := some 99 } :=
  (advance_character_spec p_advance_sample 99).2.2 (by decide) (by decide)

/-- C8: import validation order and effect.  A payload with any of the
four required fields absent fails with the missing-fields error naming
them; with all present, the character-level range check, then the energy
range check against the cap of the imported level, then the sign check on
points and upgrade level are applied, each with its own error; when all
pass, the fields are written wholesale (the result is independent of any
stored record, i.e. an upsert) with `last_save := now`. -/
theorem import_validation_spec (data : SaveData) (now : ℤ) :
    (missing_fields data ≠ [] →
      import_save_data data now = .error ("Invalid save data: missing fields " ++
        String.intercalate ", " (missing_fields data))) ∧
    (∀ pts en cl ul,
      data.points = some pts → data.energy = some en →
      data.character_level = some cl → data.upgrade_level = some ul →
      ((cl < 1 ∨ cl > 5 →
        import_save_data data now = .error "Invalid character level") ∧
      (1 ≤ cl → cl ≤ 5 →
        (en < 0 ∨ en > max_energy cl →
          import_save_data data now = .error "Invalid energy value")) ∧
      (1 ≤ cl → cl ≤ 5 → 0 ≤ en → en ≤ max_energy cl →
        (pts < 0 ∨ ul < 0 →
          import_save_data data now = .error "Invalid points or upgrade level")) ∧
      (1 ≤ cl → cl ≤ 5 → 0 ≤ en → en ≤ max_energy cl → 0 ≤ pts → 0 ≤ ul →
        import_save_data data now = .ok
          { points := pts
            energy := en
            character_level := cl
            upgrade_level := ul
            last_energy_update := data.last_energy_update.getD now
            last_passive_income := data.last_passive_income.getD now
            last_save := some now }))) := by
  constructor
  · intro h
    cases hpts : data.points <;> cases hen : data.energy <;>
      cases hcl : data.character_level <;> cases hul : data.upgrade_level <;>
      first
        | (simp [import_save_data, hpts, hen, hcl, hul]; done)
        | exact absurd (by simp [missing_fields, hpts, hen, hcl, hul]) h
  · intro pts en cl ul hpts hen hcl hul
    refine ⟨?_, ?_, ?_, ?_⟩
    · intro hbad
      simp only [import_save_data, hpts, hen, hcl, hul]
      rw [if_pos hbad]
    · intro hc1 hc5 hbad
      simp only [import_save_data, hpts, hen, hcl, hul]
      rw [if_neg (by push_neg; omega), if_pos hbad]
    · intro hc1 hc5 he0 hemax hbad
      simp only [import_save_data, hpts, hen, hcl, hul]
      rw [if_neg (by push_neg; omega), if_neg (by push_neg; exact ⟨he0, hemax⟩),
        if_pos hbad]
    · intro hc1 hc5 he0 hemax hp0 hu0
      simp only [import_save_data, hpts, hen, hcl, hul]
      rw [if_neg (by push_neg; omega), if_neg (by push_neg; exact ⟨he0, hemax⟩),
        if_neg (by push_neg; exact ⟨hp0, hu0⟩)]

/-- C8 witness: a fully valid payload is imported wholesale. -/
theorem import_validation_spec_witness :
    import_save_data d_sample 77 = .ok
      { points := 50
        energy := 120
        character_level := 2
        upgrade_level := 1
        last_energy_update := d_sample.last_energy_update.getD 77
        last_passive_income := d_sample.last_passive_income.getD 77
        last_save := some 77 } :=
  ((import_validation_spec d_sample 77).2 50 120 2 1 rfl rfl rfl rfl).2.2.2
    (by decide) (by decide) (by decide) (by decide) (by decide) (by decide)

/-! ### Invariant preservation (C9) -/

theorem max_energy_pos {l : ℤ} (h1 : 1 ≤ l) (h5 : l ≤ 5) : 0 < max_energy l := by
  unfold max_energy; split_ifs <;> omega

theorem multiplier_nonneg (l : ℤ) : 0 ≤ multiplier l := by
  unfold multiplier; split_ifs <;> norm_num

theorem get_upgrade_cost_nonneg (l : ℤ) : 0 ≤ get_upgrade_cost l := by
  unfold get_upgrade_cost
  split_ifs with h
  · norm_num
  · unfold pyInt
    rw [if_pos (by positivity)]
    exact Int.le_floor.mpr (by positivity)

theorem calculate_points_per_click_nonneg (u : ℤ) : 0 ≤ calculate_points_per_click u := by
  unfold calculate_points_per_click
  split_ifs with h
  · norm_num
  · rw [foldl_add_eq_sum, zero_add]
    apply List.sum_nonneg
    intro x hx
    simp only [List.mem_map] at hx
    obtain ⟨i, _, rfl⟩ := hx
    have hc := get_upgrade_cost_nonneg (i : ℤ)
    have hc2 : (0 : ℚ) ≤ (get_upgrade_cost (i : ℤ) : ℚ) := by exact_mod_cast hc
    exact mul_nonneg hc2 (by norm_num)

theorem Inv_new_player (t : ℤ) : Inv (new_player t) := by
  refine ⟨?_, ?_, ?_, ?_, ?_⟩ <;> norm_num [new_player, max_energy]

theorem Inv_update_energy {p : Player} (h : Inv p) (now : ℤ) : Inv (update_energy p now) := by
  obtain ⟨he0, hemax, hp0, h1, h5⟩ := h
  simp only [update_energy]
  split_ifs with hc
  · exact ⟨le_min (by omega) (max_energy_pos h1 h5).le, min_le_right _ _, hp0, h1, h5⟩
  · exact ⟨he0, hemax, hp0, h1, h5⟩

theorem Inv_update_passive_income {p : Player} (h : Inv p) (now : ℤ) :
    Inv (update_passive_income p now) := by
  obtain ⟨he0, hemax, hp0, h1, h5⟩ := h
  simp only [update_passive_income]
  split_ifs with hc
  · refine ⟨he0, hemax, ?_, h1, h5⟩
    have hb := calculate_points_per_click_nonneg p.upgrade_level
    have hm := multiplier_nonneg p.character_level
    have hpc : (0 : ℚ) ≤ (Int.tdiv (now - p.last_passive_income) 60 : ℚ) := by
      exact_mod_cast hc.le
    exact add_nonneg hp0 (mul_nonneg (mul_nonneg hpc hb) hm)
  · exact ⟨he0, hemax, hp0, h1, h5⟩

theorem Inv_catch_up {p : Player} (h : Inv p) (now : ℤ) : Inv (catch_up p now) :=
  Inv_update_passive_income (Inv_update_energy h now) now

theorem Inv_click_checked {p q : Player} {now : ℤ} (h : Inv p)
    (hq : click_checked p now = .ok q) : Inv q := by
  obtain ⟨he0, hemax, hp0, h1, h5⟩ := h
  simp only [click_checked] at hq
  split_ifs at hq with hc
  simp only [Except.ok.injEq] at hq
  subst hq
  refine ⟨?_, ?_, add_nonneg hp0 (mul_nonneg (calculate_points_per_click_nonneg _)
    (multiplier_nonneg _)), h1, h5⟩
  · show (0 : ℤ) ≤ p.energy - 2
    omega
  · show p.energy - 2 ≤ max_energy p.character_level
    omega

theorem Inv_purchase_upgrade_checked {p q : Player} {requested now : ℤ} (h : Inv p)
    (hq : purchase_upgrade_checked p requested now = .ok q) : Inv q := by
  obtain ⟨he0, hemax, hp0, h1, h5⟩ := h
  simp only [purchase_upgrade_checked] at hq
  split_ifs at hq with hg hc
  simp only [Except.ok.injEq] at hq
  subst hq
  exact ⟨he0, hemax, sub_nonneg.mpr (not_lt.mp hc), h1, h5⟩

theorem Inv_advance_character_checked {p q : Player} {now : ℤ} (h : Inv p)
    (hq : advance_character_checked p now = .ok q) : Inv q := by
  obtain ⟨he0, hemax, hp0, h1, h5⟩ := h
  simp only [advance_character_checked] at hq
  split_ifs at hq with h5'
  cases hcost : advancement_cost p.character_level with
  | none =>
    simp only [hcost] at hq
    exact Except.noConfusion hq
  | some k =>
    simp only [hcost] at hq
    split_ifs at hq with hk
    simp only [Except.ok.injEq] at hq
    subst hq
    refine ⟨(max_energy_pos (by omega) (by omega)).le, le_refl _, le_refl _, ?_, ?_⟩
    · show 1 ≤ p.character_level + 1
      omega
    · show p.character_level + 1 ≤ 5
      omega

theorem Inv_import_save_data {q : Player} {data : SaveData} {now : ℤ}
    (hq : import_save_data data now = .ok q) : Inv q := by
  obtain ⟨dp, de, dc, du, dl1, dl2⟩ := data
  cases dp <;> cases de <;> cases dc <;> cases du <;>
    simp only [import_save_data] at hq <;>
    try exact Except.noConfusion hq
  split_ifs at hq with hc he hs
  simp only [Except.ok.injEq] at hq
  subst hq
  push_neg at hc he hs
  exact ⟨he.1, he.2, hs.1, hc.1, hc.2⟩

theorem Inv_apply_op {p : Player} (h : Inv p) (op : Op) : Inv (apply_op p op) := by
  cases op with
  | getPlayer now => exact Inv_catch_up h now
  | clickOp now =>
    simp only [apply_op, click]
    cases hres : click_checked (catch_up p now) now with
    | error e => exact Inv_catch_up h now
    | ok r => exact Inv_click_checked (Inv_catch_up h now) hres
  | upgradeOp requested now =>
    simp only [apply_op, purchase_upgrade]
    cases hres : purchase_upgrade_checked (catch_up p now) requested now with
    | error e => exact Inv_catch_up h now
    | ok r => exact Inv_purchase_upgrade_checked (Inv_catch_up h now) hres
  | advanceOp now =>
    simp only [apply_op, advance_character]
    cases hres : advance_character_checked (catch_up p now) now with
    | error e => exact Inv_catch_up h now
    | ok r => exact Inv_advance_character_checked (Inv_catch_up h now) hres
  | saveOp now =>
    have hc := Inv_catch_up h now
    obtain ⟨he0, hemax, hp0, h1, h5⟩ := hc
    exact ⟨he0, hemax, hp0, h1, h5⟩
  | exportOp now => exact Inv_catch_up h now
  | importOp data now =>
    simp only [apply_op]
    cases hres : import_save_data data now with
    | error e => exact h
    | ok r => exact Inv_import_save_data hres

theorem Inv_foldl (ops : List Op) : ∀ p : Player, Inv p → Inv (ops.foldl apply_op p) := by
  induction ops with
  | nil => intro p h; simpa using h
  | cons op rest ih =>
    intro p h
    rw [List.foldl_cons]
    exact ih _ (Inv_apply_op h op)

/-- C9: every record reachable from lazy creation through any sequence of
requests (catch-up reads, clicks, purchases, advancements, saves, exports
and imports, at arbitrary instants, including ones before the stored
anchors) satisfies `0 ≤ energy ≤ max_energy character_level`,
`0 ≤ points` and `1 ≤ character_level ≤ 5`. -/
theorem state_invariants_spec (t : ℤ) (ops : List Op) : Inv (run t ops) :=
  Inv_foldl ops _ (Inv_new_player t)

/-! ### Lazily created records and the reported `last_save` (C10) -/

theorem update_energy_last_save (p : Player) (now : ℤ) :
    (update_energy p now).last_save = p.last_save := by
  simp only [update_energy]; split_ifs <;> rfl

theorem update_passive_income_last_save (p : Player) (now : ℤ) :
    (update_passive_income p now).last_save = p.last_save := by
  simp only [update_passive_income]; split_ifs <;> rfl

theorem catch_up_last_save (p : Player) (now : ℤ) :
    (catch_up p now).last_save = p.last_save := by
  unfold catch_up
  rw [update_passive_income_last_save, update_energy_last_save]

theorem foldl_catch_up_last_save (nows : List ℤ) :
    ∀ p : Player, p.last_save = none → (nows.foldl catch_up p).last_save = none := by
  induction nows with
  | nil => intro p h; simpa using h
  | cons x xs ih =>
    intro p h
    rw [List.foldl_cons]
    exact ih _ ((catch_up_last_save p x).trans h)

/-- C10: a lazily created record has the default fields, both anchors at
the creation instant and no `last_save` field; catch-up reads never write
`last_save`, so for a player that only ever performed reads, `get_player`
reports as `last_save` the stored `last_energy_update` fallback. -/
theorem lazy_creation_last_save_spec (t : ℤ) (nows : List ℤ) (now : ℤ) :
    get_or_create_player none t =
      { points := 0
        energy := 100
        character_level := 1
        upgrade_level := 0
        last_energy_update := t
        last_passive_income := t
        last_save := none } ∧
    (nows.foldl catch_up (new_player t)).last_save = none ∧
    get_player_last_save (nows.foldl catch_up (new_player t)) now =
      (catch_up (nows.foldl catch_up (new_player t)) now).last_energy_update := by
  have hnone : (nows.foldl catch_up (new_player t)).last_save = none :=
    foldl_catch_up_last_save nows _ rfl
  refine ⟨rfl, hnone, ?_⟩
  simp only [get_player_last_save]
  rw [catch_up_last_save, hnone]
  rfl

example : get_upgrade_cost 0 = 100 := by decide
example : Int.tdiv (-5) 10 = 0 := by decide
example : (update_energy (new_player 0) 25).energy = 100 := by decide
example : (update_energy { new_player 0 with energy := 50 } 25).energy = 52 := by decide
example : (update_energy (new_player 0) 25).last_energy_update = 25 := by decide
example : update_energy (new_player 0) 9 = new_player 0 := by decide
example : (click_checked (new_player 0) 3).isOk = true := by decide

end IrysClicker
